import Mathlib

/-
  Verification development for the `rocks` tree-walking interpreter
  (src/src/interpreter.rs, function.rs, class.rs, object.rs, literal.rs,
  environment.rs, error.rs).

  The evaluator core is embedded shallowly:
  * `Literal`, `Object`, `ClassT`, `FunctionV`, `InstanceD` model the runtime
    value types (object.rs, literal.rs, class.rs, function.rs);
  * `Frame` / `IState` model the `Rc<RefCell<Environment>>` graph as a heap of
    frames addressed by index, together with the interpreter's fields
    (`environment`, `globals`, `locals`, the output writer and the global
    error flag of error.rs);
  * `step` is the recursive evaluator: one fuel-indexed function whose arms
    mirror, one for one, the `visit_*` methods of `impl ExprVisitor` /
    `impl StmtVisitor for Interpreter`, `Interpreter::execute_block`,
    `Function::call` and `Class::call`.  Fuel exhaustion is `Res.stuck`;
    a Rust panic (`unreachable!`, `todo!`, `expect`) is `Res.crash`.

  Numbers: the source uses `f64`.  No claim settled here depends on
  floating-point rounding, infinities or NaN, so numbers are modelled as `Int`
  (with `Int` division standing in for `f64` division; `/` is not used by any
  theorem below).

  The `super` expression (`visit_super_expr`) is not modelled: no claim
  mentions it and it is independent of the rest of the evaluator.
-/

namespace Rocks

/-- Runtime scalar literals (src/literal.rs `Literal`).  Numbers are modelled
as `Int`, see the header comment. -/
inductive Literal where
  | str (s : String)
  | num (n : Int)
  | bool (b : Bool)
  | null
deriving DecidableEq, Repr

/-- src/literal.rs `Literal::as_bool`: a boolean is itself, a number is true
iff it is not `0.0`, null is false, a string is true iff it is non-empty. -/
def Literal.as_bool : Literal → Bool
  | .bool b => b
  | .num n => decide (n ≠ 0)
  | .null => false
  | .str s => !s.isEmpty

/-- src/literal.rs `Literal::type_str`. -/
def Literal.type_str : Literal → String
  | .str _ => "string"
  | .num _ => "number"
  | .bool _ => "boolean"
  | .null => "null"

/-- Token kinds the evaluator dispatches on (src/token.rs `Type`, restricted
to the constructors consumed by interpreter.rs). -/
inductive TokType where
  | plus | minus | slash | star
  | equalEqual | bangEqual | greater | less | greaterEqual | lessEqual
  | bang | orK | andK | identifier
deriving DecidableEq, Repr

/-- src/token.rs `Token`: kind, lexeme, and source location.  The location is
modelled as a bare `Nat` identifier `loc`; tokens are compared by all fields
(`derive PartialEq`), so two occurrences of the same name at different
positions are distinct resolution keys. -/
structure Token where
  ty : TokType
  lexeme : String
  loc : Nat
deriving DecidableEq, Repr

/-- Expressions (src/expr.rs `Expr` in the revision consumed by
interpreter.rs).  `varE` is `Expr::Variable`, `thisE` is `Expr::This`;
`Expr::Super` is omitted (see header). -/
inductive Expr where
  | lit (l : Literal)
  | logical (left : Expr) (op : Token) (right : Expr)
  | unary (op : Token) (e : Expr)
  | binary (left : Expr) (op : Token) (right : Expr)
  | grouping (e : Expr)
  | varE (name : Token)
  | assign (name : Token) (value : Expr)
  | call (callee : Expr) (paren : Token) (args : List Expr)
  | get (obj : Expr) (name : Token)
  | set (obj : Expr) (name : Token) (value : Expr)
  | thisE (keyword : Token)

/-- Statements (src/stmt.rs `Stmt` in the revision consumed by
interpreter.rs).  `funDecl` carries the fields of `Function` used by
`Function::new`; `ret` is `Stmt::Return`, `brk` is `Stmt::Break`. -/
inductive Stmt where
  | expression (e : Expr)
  | funDecl (name : Token) (params : List Token) (body : List Stmt)
  | ifS (cond : Expr) (thenB : Stmt) (elseB : Option Stmt)
  | print (e : Expr)
  | ret (keyword : Token) (value : Option Expr)
  | brk
  | var (name : Token) (initializer : Option Expr)
  | whileS (cond : Expr) (body : Stmt)
  | block (stmts : List Stmt)
  | classDecl (name : Token) (superclass : Option Expr) (methods : List Stmt)

/-- src/function.rs `Function`: name, parameters, body, captured environment
(`closure`, an index into the frame heap) and the `is_initializer` flag
(called `isInit` here). -/
structure FunctionV where
  name : Token
  params : List Token
  body : List Stmt
  closure : Nat
  isInit : Bool

/-- src/class.rs `Class`: name, optional superclass, own methods.  The source
stores the superclass as `Option<Object>` and inspects it only through
`if let Some(Object::Class(sc))` in `get_method`; a non-class superclass
object (possible after the "Superclass must be a class" error, which does not
abort) behaves exactly like `None` there, so it is narrowed to
`Option ClassT` at construction (see the `classDecl` arm of `step`). -/
inductive ClassT where
  | mk (name : String) (superclass : Option ClassT) (methods : List (String × FunctionV))

/-- The class's name. -/
def ClassT.nameOf : ClassT → String
  | .mk n _ _ => n

/-- The class's own method table. -/
def ClassT.methodsOf : ClassT → List (String × FunctionV)
  | .mk _ _ ms => ms

/-- The class's superclass, if it is a class. -/
def ClassT.superOf : ClassT → Option ClassT
  | .mk _ sup _ => sup

/-- Runtime values (src/object.rs `Object`).  `native` is
`Object::NativeFunction`, identified by name (the host function pointer is
external I/O, see `nativeCall`).  `inst` is `Object::Instance`: an
`Rc<RefCell<Instance>>`, modelled as an index into the instance heap so that
instances have identity and shared mutability.  `cls` holds the class by
value: `Class::call` clones the class into a fresh `Rc` for each instance and
the evaluator never compares or mutates class cells, so `Rc` identity is
immaterial. -/
inductive Object where
  | lit (l : Literal)
  | fn (f : FunctionV)
  | native (name : String)
  | cls (c : ClassT)
  | inst (i : Nat)

/-- src/object.rs `Object::as_bool`: `Some` of the literal's truthiness for
literals, `None` otherwise. -/
def Object.as_bool : Object → Option Bool
  | .lit l => some l.as_bool
  | _ => none

/-- src/class.rs `Instance`: a reference to its class plus mutable fields. -/
structure InstanceD where
  cls : ClassT
  fields : List (String × Object)

/-- src/environment.rs `Environment`: one scope frame.  `enclosing` is the
index of the parent frame in the heap, `values` the name-to-value map
(a `HashMap` in the source; modelled as an association list where
`assocSet` overwrites, matching `HashMap::insert`). -/
structure Frame where
  enclosing : Option Nat
  values : List (String × Object)

/-- src/error.rs `RuntimeError`: offending token and message. -/
structure ErrV where
  token : Token
  message : String

/-- The interpreter state: the frame heap (modelling the shared
`Rc<RefCell<Environment>>` graph), the instance heap, the `globals` and
current `environment` indices, the resolver's side table `locals`
(token to depth), the output writer's lines, the stderr lines and global
`HAD_RUNTIME_ERROR` flag of error.rs, and a log of invoked native
functions (host I/O, recorded for observability). -/
structure IState where
  envs : List Frame
  instances : List InstanceD
  globals : Nat
  env : Nat
  locals : List (Token × Nat)
  output : List String
  errors : List String
  hadRuntimeError : Bool
  nativeLog : List String

/-- `HashMap::insert`: overwrite an existing key or append a new binding. -/
def assocSet {α : Type} : List (String × α) → String → α → List (String × α)
  | [], k, v => [(k, v)]
  | (k', v') :: rest, k, v =>
      if k' = k then (k, v) :: rest else (k', v') :: assocSet rest k v

/-- Read a frame from the heap. -/
def IState.frame? (s : IState) (i : Nat) : Option Frame :=
  s.envs.get? i

/-- Replace a frame in the heap (a `RefCell` mutation). -/
def IState.setFrame (s : IState) (i : Nat) (f : Frame) : IState :=
  { s with envs := s.envs.set i f }

/-- src/environment.rs `Environment::define`: insert or overwrite in the
given frame only.  A dangling index leaves the state unchanged; the
interpreter only ever defines into live frames. -/
def IState.defineIn (s : IState) (i : Nat) (name : String) (v : Object) : IState :=
  match s.frame? i with
  | some f => s.setFrame i { f with values := assocSet f.values name v }
  | none => s

/-- Append a fresh frame to the heap; its index is the old heap length. -/
def pushFrame (s : IState) (f : Frame) : IState :=
  { s with envs := s.envs ++ [f] }

/-- src/error.rs `RuntimeError::throw`: print the diagnostic to stderr and
set the global `HAD_RUNTIME_ERROR` flag.  It does NOT unwind: the caller
continues.  The recorded line keeps the message; the `[line L:C] Error at
'lexeme':` prefix built from the token is elided. -/
def throwErr (s : IState) (e : ErrV) : IState :=
  { s with errors := s.errors ++ [e.message], hadRuntimeError := true }

/-- Walk `n` parent links from frame `i`.  `none` models the
`expect("enclosing environment to exist …")` panic in
`Environment::ancestor` (or a dangling index, which live states never
produce). -/
def walkUp (s : IState) : Nat → Nat → Option Nat
  | i, 0 => some i
  | i, n + 1 =>
      match s.frame? i with
      | some f =>
          match f.enclosing with
          | some p => walkUp s p n
          | none => none
      | none => none

/-- src/environment.rs `Environment::ancestor`: one step to the parent, then
`distance - 1` further steps (so `max distance 1` links in total). -/
def ancestor (s : IState) (i : Nat) (distance : Nat) : Option Nat :=
  walkUp s i (max distance 1)

/-- src/environment.rs `Environment::get_at`: walk exactly `distance` links
(0 = this frame) and perform a frame-local lookup.  `some (.error e)` is the
"Undefined variable" result; `none` models the panic inside `ancestor`. -/
def get_at (s : IState) (i : Nat) (distance : Nat) (name : Token) :
    Option (Except ErrV Object) :=
  if distance > 0 then
    match ancestor s i distance with
    | some j =>
        match s.frame? j with
        | some f =>
            match f.values.lookup name.lexeme with
            | some v => some (.ok v)
            | none => some (.error ⟨name,
                "Undefined variable " ++ toString distance ++ " '" ++ name.lexeme ++ "'"⟩)
        | none => none
    | none => none
  else
    match s.frame? i with
    | some f =>
        match f.values.lookup name.lexeme with
        | some v => some (.ok v)
        | none => some (.error ⟨name,
            "Undefined variable " ++ toString distance ++ " '" ++ name.lexeme ++ "'"⟩)
    | none => none

/-- src/environment.rs `Environment::assign_at`: walk exactly `distance`
links and insert into that frame.  `none` models the panic inside
`ancestor`. -/
def assign_at (s : IState) (i : Nat) (distance : Nat) (name : Token) (v : Object) :
    Option IState :=
  if distance > 0 then
    match ancestor s i distance with
    | some j =>
        match s.frame? j with
        | some f => some (s.setFrame j { f with values := assocSet f.values name.lexeme v })
        | none => none
    | none => none
  else
    match s.frame? i with
    | some f => some (s.setFrame i { f with values := assocSet f.values name.lexeme v })
    | none => none

/-- src/environment.rs `Environment::get`: look up in this frame, else
delegate to the parent, else the "Undefined variable" error.  The fuel bounds
the chain walk (callers pass the heap size); `none` is fuel exhaustion or a
dangling index, neither of which live states produce. -/
def envGet (s : IState) : Nat → Nat → Token → Option (Except ErrV Object)
  | 0, _, _ => none
  | fuel + 1, i, name =>
      match s.frame? i with
      | some f =>
          match f.values.lookup name.lexeme with
          | some v => some (.ok v)
          | none =>
              match f.enclosing with
              | some p => envGet s fuel p name
              | none => some (.error ⟨name, "Undefined variable '" ++ name.lexeme ++ "'"⟩)
      | none => none

/-- src/environment.rs `Environment::assign`: same chain search as `get`,
but on reaching the root with no match it calls `RuntimeError::throw` itself
(no unwinding) rather than creating a binding. -/
def envAssign (s : IState) : Nat → Nat → Token → Object → Option IState
  | 0, _, _, _ => none
  | fuel + 1, i, name, v =>
      match s.frame? i with
      | some f =>
          if (f.values.lookup name.lexeme).isSome then
            some (s.setFrame i { f with values := assocSet f.values name.lexeme v })
          else
            match f.enclosing with
            | some p => envAssign s fuel p name v
            | none => some (throwErr s ⟨name, "Undefined variable '" ++ name.lexeme ++ "'"⟩)
      | none => none

/-- src/class.rs `Class::get_method`: the own table first, else the
superclass chain, else `None`. -/
def ClassT.get_method : ClassT → String → Option FunctionV
  | .mk _ sup ms, name =>
      match ms.lookup name with
      | some m => some m
      | none =>
          match sup with
          | some sc => sc.get_method name
          | none => none

/-- src/function.rs `impl Callable for Function`: arity is the number of
parameters. -/
def FunctionV.arity (f : FunctionV) : Nat :=
  f.params.length

/-- src/function.rs `impl Callable for NativeFunction`: `fn arity` returns 0
unconditionally, for every native function. -/
def nativeArity (_name : String) : Nat := 0

/-- src/class.rs `impl Callable for Class`: arity of the `init` method found
through `get_method` (0 if none). -/
def ClassT.arity (c : ClassT) : Nat :=
  match c.get_method "init" with
  | some f => f.params.length
  | none => 0

/-- src/function.rs `Function::bind`: a fresh child frame of the closure
defining `this`, and a copy of the function closing over it. -/
def FunctionV.bind (f : FunctionV) (instObj : Object) (s : IState) : FunctionV × IState :=
  ({ f with closure := s.envs.length },
   pushFrame s { enclosing := some f.closure, values := [("this", instObj)] })

/-- The `Display` impls (literal.rs, function.rs, class.rs, object.rs) used
by the print statement. -/
def display (s : IState) : Object → String
  | .lit (.str t) => t
  | .lit (.num n) => toString n
  | .lit (.bool b) => if b then "true" else "false"
  | .lit .null => "null"
  | .fn f => "<function " ++ f.name.lexeme ++ ">"
  | .native n => "<native function " ++ n ++ ">"
  | .cls c => "<class " ++ c.nameOf ++ ">"
  | .inst i =>
      match s.instances.get? i with
      | some d => "<instance " ++ d.cls.nameOf ++ ">"
      | none => "<instance>"

/-- `Result<(), ReturnType>` of statement execution: normal completion, a
propagating `return` signal carrying its value (`ReturnError`), or a `break`
signal (`BreakError`). -/
inductive CFlow where
  | norm
  | ret (v : Object)
  | brk

/-- Outcome of a model computation: a value with the updated state, a Rust
process panic (`unreachable!`, `todo!`, `expect`), or fuel exhaustion /
a dangling heap index (`stuck`, a model artifact no real execution hits). -/
inductive Res (α : Type) where
  | out (a : α) (s : IState)
  | crash (msg : String)
  | stuck

/-- Sequencing on `Res`: panics and fuel exhaustion propagate. -/
def Res.andThen {α β : Type} (r : Res α) (k : α → IState → Res β) : Res β :=
  match r with
  | .out a s => k a s
  | .crash m => .crash m
  | .stuck => .stuck

/-- The resolver side table lookup (`Interpreter::locals.get(name)`): keyed
by the whole token. -/
def localsGet (locals : List (Token × Nat)) (t : Token) : Option Nat :=
  (locals.find? (fun p => decide (p.1 = t))).map Prod.snd

/-- src/interpreter.rs `Interpreter::lookup_variable`: resolved tokens use
`get_at` at the recorded distance from the current environment, unresolved
ones fall back to `globals.get`; an `Err` is thrown (flag set) and `Null`
returned. -/
def lookup_variable (s : IState) (name : Token) : Res Object :=
  match localsGet s.locals name with
  | some d =>
      match get_at s s.env d name with
      | some (.ok v) => .out v s
      | some (.error e) => .out (.lit .null) (throwErr s e)
      | none => .crash "enclosing environment to exist"
  | none =>
      match envGet s s.envs.length s.globals name with
      | some (.ok v) => .out v s
      | some (.error e) => .out (.lit .null) (throwErr s e)
      | none => .stuck

/-- The arity-mismatch message of `visit_call_expr`:
`format!("Expected {} arguments but got {}", arity, n)`. -/
def arityMsg (expected got : Nat) : String :=
  "Expected " ++ toString expected ++ " arguments but got " ++ toString got

/-- The literal-on-literal arm of src/interpreter.rs `visit_binary_expr`:
exact operator tables per matching literal kind; the catch-all per kind and
the mismatched-kind catch-all throw and yield `Null`. -/
def binaryLit (op : Token) (l r : Literal) (s : IState) : Res Object :=
  match l, r with
  | .num a, .num b =>
      match op.ty with
      | .plus => .out (.lit (.num (a + b))) s
      | .minus => .out (.lit (.num (a - b))) s
      | .slash => .out (.lit (.num (a / b))) s
      | .star => .out (.lit (.num (a * b))) s
      | .equalEqual => .out (.lit (.bool (decide (a = b)))) s
      | .bangEqual => .out (.lit (.bool (decide (a ≠ b)))) s
      | .greater => .out (.lit (.bool (decide (a > b)))) s
      | .less => .out (.lit (.bool (decide (a < b)))) s
      | .greaterEqual => .out (.lit (.bool (decide (a ≥ b)))) s
      | .lessEqual => .out (.lit (.bool (decide (a ≤ b)))) s
      | _ => .out (.lit .null) (throwErr s ⟨op,
          "Binary operation '" ++ op.lexeme ++ "' is not supported for number type"⟩)
  | .str a, .str b =>
      match op.ty with
      | .equalEqual => .out (.lit (.bool (decide (a = b)))) s
      | .bangEqual => .out (.lit (.bool (decide (a ≠ b)))) s
      | .plus => .out (.lit (.str (a ++ b))) s
      | _ => .out (.lit .null) (throwErr s ⟨op,
          "Binary operation '" ++ op.lexeme ++ "' is not supported for string type"⟩)
  | .bool a, .bool b =>
      match op.ty with
      | .equalEqual => .out (.lit (.bool (decide (a = b)))) s
      | .bangEqual => .out (.lit (.bool (decide (a ≠ b)))) s
      | _ => .out (.lit .null) (throwErr s ⟨op,
          "Binary operation '" ++ op.lexeme ++ "' is not supported for boolean type"⟩)
  | .null, .null =>
      match op.ty with
      | .equalEqual => .out (.lit (.bool true)) s
      | .bangEqual => .out (.lit (.bool false)) s
      | _ => .out (.lit .null) (throwErr s ⟨op,
          "Binary operation '" ++ op.lexeme ++ "' is not supported for null type"⟩)
  | _, _ => .out (.lit .null) (throwErr s ⟨op,
      "Binary operation with mismatched literal types is not supported"⟩)

/-- src/function.rs `NativeFunction::call`: the host function (`clock`'s
system time, `input`'s stdin line) is external I/O; the invocation is
recorded in `nativeLog` and the host result is abstracted as `Null` (no
claim depends on the returned value, only on whether the host function was
invoked). -/
def nativeCall (nm : String) (_args : List Object) (s : IState) : Res Object :=
  .out (.lit .null) { s with nativeLog := s.nativeLog ++ [nm] }

/-- The parameter-binding loop of `Function::call`:
`params.iter().zip(arguments).for_each(define)`. -/
def paramBind (params : List Token) (args : List Object) : List (String × Object) :=
  (params.zip args).foldl (fun m pa => assocSet m pa.1.lexeme pa.2) []

/-- The fresh call environment of `Function::call`: a child of the closure
with the parameters bound. -/
def callEnvFrame (f : FunctionV) (args : List Object) : Frame :=
  { enclosing := some f.closure, values := paramBind f.params args }

/-- `Function::new` applied to each `Stmt::Function` in `visit_class_stmt`,
building the method table (`HashMap::insert`, so later duplicates
overwrite).  `none` models the `unreachable!()` on a non-function member. -/
def buildMethods (envIdx : Nat) :
    List Stmt → List (String × FunctionV) → Option (List (String × FunctionV))
  | [], acc => some acc
  | .funDecl name params body :: rest, acc =>
      buildMethods envIdx rest
        (assocSet acc name.lexeme
          ⟨name, params, body, envIdx, name.lexeme = "init"⟩)
  | _ :: _, _ => none

/-- The work items of the evaluator: each constructor corresponds to one
recursive entry point of the source (`evaluate`, the argument-list map of
`visit_call_expr`, `execute`, the statement loop of `execute_block`,
`execute_block` itself, `Function::call`, `Class::call`, and the loop of
`visit_while_stmt`).  They are packaged into one fuel-indexed function
`step` so that the mutual recursion is structural on the fuel and concrete
runs reduce definitionally. -/
inductive Job where
  | evalE (e : Expr)
  | evalList (es : List Expr)
  | execS (st : Stmt)
  | execList (sts : List Stmt)
  | execBlockJ (sts : List Stmt) (envIdx : Nat)
  | callF (f : FunctionV) (args : List Object)
  | callC (c : ClassT) (args : List Object)
  | whileJ (cond : Expr) (body : Stmt)

/-- Result payload of `step`, discriminated by job kind. -/
inductive RVal where
  | obj (o : Object)
  | objs (os : List Object)
  | flow (c : CFlow)
  | callR (r : Except ErrV Object)

/-- The evaluator.  Each arm mirrors the like-named function of
src/interpreter.rs (`visit_*`), src/function.rs (`Function::call`) or
src/class.rs (`Class::call`); comments name the source function.  Fuel is a
step budget: every recursive call spends one unit; `Res.stuck` means the
budget ran out (or a dangling heap index, which live states never produce).
Uses of `Object::as_bool` whose `None` case the source cannot handle
(the snapshot's `Object::as_bool` returns `Option<bool>` while the
interpreter consumes a plain `bool`; conditions and operands are literals in
every executable path considered here) are modelled as `stuck`. -/
def step : Nat → Job → IState → Res RVal
  | 0, _, _ => .stuck
  | fuel + 1, j, s =>
    match j with
    | .evalE e =>
      match e with
      -- visit_literal_expr
      | .lit l => .out (.obj (.lit l)) s
      -- visit_logical_expr: short-circuit on the left operand's truthiness,
      -- returning the left value itself (not a canonicalized boolean)
      | .logical left op right =>
        (step fuel (.evalE left) s).andThen fun r s1 =>
          match r with
          | .obj lv =>
            match op.ty with
            | .orK =>
              match lv.as_bool with
              | some b => if b then .out (.obj lv) s1 else step fuel (.evalE right) s1
              | none => .stuck
            | .andK =>
              match lv.as_bool with
              | some b => if b then step fuel (.evalE right) s1 else .out (.obj lv) s1
              | none => .stuck
            | _ => .crash "internal error: entered unreachable code"
          | _ => .stuck
      -- visit_unary_expr
      | .unary op e1 =>
        (step fuel (.evalE e1) s).andThen fun r s1 =>
          match r with
          | .obj rv =>
            match op.ty with
            | .minus =>
              match rv with
              | .lit (.num n) => .out (.obj (.lit (.num (-n)))) s1
              | _ => .stuck
            | .bang =>
              match rv with
              | .lit l => .out (.obj (.lit (.bool (!l.as_bool)))) s1
              | _ => .stuck
            | _ => .crash "internal error: entered unreachable code"
          | _ => .stuck
      -- visit_binary_expr: evaluate left then right; literal pairs go to
      -- `binaryLit`, any non-literal operand throws and yields Null
      | .binary left op right =>
        (step fuel (.evalE left) s).andThen fun r1 s1 =>
          match r1 with
          | .obj lv =>
            (step fuel (.evalE right) s1).andThen fun r2 s2 =>
              match r2 with
              | .obj rv =>
                match lv, rv with
                | .lit ll, .lit rl =>
                  (binaryLit op ll rl s2).andThen fun o s3 => .out (.obj o) s3
                | _, _ => .out (.obj (.lit .null)) (throwErr s2 ⟨op,
                    "Binary operation with non-literal objects is not supported"⟩)
              | _ => .stuck
          | _ => .stuck
      -- visit_grouping_expr
      | .grouping e1 => step fuel (.evalE e1) s
      -- visit_variable_expr
      | .varE name =>
        (lookup_variable s name).andThen fun v s1 => .out (.obj v) s1
      -- visit_assign_expr: resolved names use assign_at at the recorded
      -- distance, unresolved ones go through globals.assign
      | .assign name value =>
        (step fuel (.evalE value) s).andThen fun r s1 =>
          match r with
          | .obj v =>
            match localsGet s1.locals name with
            | some d =>
              match assign_at s1 s1.env d name v with
              | some s2 => .out (.obj v) s2
              | none => .crash "enclosing environment to exist"
            | none =>
              match envAssign s1 s1.envs.length s1.globals name v with
              | some s2 => .out (.obj v) s2
              | none => .stuck
          | _ => .stuck
      -- visit_call_expr: evaluate callee, then all arguments left-to-right,
      -- check arity BEFORE invoking, and rewrite a returned error's token to
      -- the closing parenthesis
      | .call callee paren argEs =>
        (step fuel (.evalE callee) s).andThen fun r s1 =>
          match r with
          | .obj cv =>
            (step fuel (.evalList argEs) s1).andThen fun ra s2 =>
              match ra with
              | .objs args =>
                match cv with
                | .fn f =>
                  if args.length ≠ f.arity then
                    .out (.obj (.lit .null))
                      (throwErr s2 ⟨paren, arityMsg f.arity args.length⟩)
                  else
                    (step fuel (.callF f args) s2).andThen fun rc s3 =>
                      match rc with
                      | .callR (.ok v) => .out (.obj v) s3
                      | .callR (.error e) =>
                          .out (.obj (.lit .null))
                            (throwErr s3 ⟨paren, e.message⟩)
                      | _ => .stuck
                | .native nm =>
                  if args.length ≠ nativeArity nm then
                    .out (.obj (.lit .null))
                      (throwErr s2 ⟨paren, arityMsg (nativeArity nm) args.length⟩)
                  else
                    (nativeCall nm args s2).andThen fun v s3 => .out (.obj v) s3
                | .cls c =>
                  if args.length ≠ c.arity then
                    .out (.obj (.lit .null))
                      (throwErr s2 ⟨paren, arityMsg c.arity args.length⟩)
                  else
                    (step fuel (.callC c args) s2).andThen fun rc s3 =>
                      match rc with
                      | .callR (.ok v) => .out (.obj v) s3
                      | .callR (.error e) =>
                          .out (.obj (.lit .null))
                            (throwErr s3 ⟨paren, e.message⟩)
                      | _ => .stuck
                | _ =>
                  .out (.obj (.lit .null))
                    (throwErr s2 ⟨paren, "Can only call functions and classes"⟩)
              | _ => .stuck
          | _ => .stuck
      -- visit_get_expr: fields first, then methods bound on demand; an
      -- undefined property or a non-instance target throws and then hits
      -- `todo!("Make this a real runtime error")`, a process panic
      | .get objE name =>
        (step fuel (.evalE objE) s).andThen fun r s1 =>
          match r with
          | .obj ov =>
            match ov with
            | .inst i =>
              match s1.instances.get? i with
              | some d =>
                match d.fields.lookup name.lexeme with
                | some v => .out (.obj v) s1
                | none =>
                  match d.cls.get_method name.lexeme with
                  | some m =>
                    let bs := m.bind (.inst i) s1
                    .out (.obj (.fn bs.1)) bs.2
                  | none => .crash "not yet implemented: Make this a real runtime error"
              | none => .stuck
            | _ => .crash "not yet implemented: Make this a real runtime error"
          | _ => .stuck
      -- visit_set_expr: only instances can have fields; the value is
      -- evaluated only in the instance branch
      | .set objE name value =>
        (step fuel (.evalE objE) s).andThen fun r s1 =>
          match r with
          | .obj ov =>
            match ov with
            | .inst i =>
              (step fuel (.evalE value) s1).andThen fun rv s2 =>
                match rv with
                | .obj v =>
                  match s2.instances.get? i with
                  | some d =>
                      .out (.obj v)
                        { s2 with instances :=
                            s2.instances.set i { d with fields := assocSet d.fields name.lexeme v } }
                  | none => .stuck
                | _ => .stuck
            | _ => .crash "not yet implemented: Make this a real runtime error"
          | _ => .stuck
      -- visit_this_expr
      | .thisE keyword =>
        (lookup_variable s keyword).andThen fun v s1 => .out (.obj v) s1
    -- the argument collection of visit_call_expr: left-to-right evaluation
    | .evalList es =>
      match es with
      | [] => .out (.objs []) s
      | e :: rest =>
        (step fuel (.evalE e) s).andThen fun r s1 =>
          match r with
          | .obj v =>
            (step fuel (.evalList rest) s1).andThen fun rr s2 =>
              match rr with
              | .objs vs => .out (.objs (v :: vs)) s2
              | _ => .stuck
          | _ => .stuck
    | .execS st =>
      match st with
      -- visit_expression_stmt
      | .expression e =>
        (step fuel (.evalE e) s).andThen fun r s1 =>
          match r with
          | .obj _ => .out (.flow .norm) s1
          | _ => .stuck
      -- visit_function_stmt: Function::new with the current environment as
      -- closure, defined into the current scope
      | .funDecl name params body =>
        .out (.flow .norm)
          (s.defineIn s.env name.lexeme (.fn ⟨name, params, body, s.env, false⟩))
      -- visit_if_stmt
      | .ifS cond thenB elseB =>
        (step fuel (.evalE cond) s).andThen fun r s1 =>
          match r with
          | .obj cv =>
            match cv.as_bool with
            | some b =>
              if b then step fuel (.execS thenB) s1
              else
                match elseB with
                | some e => step fuel (.execS e) s1
                | none => .out (.flow .norm) s1
            | none => .stuck
          | _ => .stuck
      -- visit_print_stmt: suppressed once the global error flag is set
      -- (`error::did_error()`; scan/parse/resolve flags are false when a
      -- resolved program reaches interpretation)
      | .print e =>
        (step fuel (.evalE e) s).andThen fun r s1 =>
          match r with
          | .obj v =>
            if s1.hadRuntimeError then .out (.flow .norm) s1
            else .out (.flow .norm) { s1 with output := s1.output ++ [display s1 v] }
          | _ => .stuck
      -- visit_return_stmt: the signal carries the value, defaulting to Null
      | .ret _ value =>
        match value with
        | some e =>
          (step fuel (.evalE e) s).andThen fun r s1 =>
            match r with
            | .obj v => .out (.flow (.ret v)) s1
            | _ => .stuck
        | none => .out (.flow (.ret (.lit .null))) s
      -- visit_break_stmt
      | .brk => .out (.flow .brk) s
      -- visit_var_stmt
      | .var name initializer =>
        match initializer with
        | some e =>
          (step fuel (.evalE e) s).andThen fun r s1 =>
            match r with
            | .obj v => .out (.flow .norm) (s1.defineIn s1.env name.lexeme v)
            | _ => .stuck
        | none => .out (.flow .norm) (s.defineIn s.env name.lexeme (.lit .null))
      -- visit_while_stmt
      | .whileS cond body => step fuel (.whileJ cond body) s
      -- visit_block_stmt: a fresh child environment of the current one
      | .block sts =>
        step fuel (.execBlockJ sts s.envs.length)
          (pushFrame s { enclosing := some s.env, values := [] })
      -- visit_class_stmt: evaluate the superclass (throwing, but not
      -- aborting, if it is not a class), define the name as Null, open the
      -- `super` scope if a superclass expression was present, build the
      -- method table, construct the class, pop the `super` scope, and
      -- assign (not define) the class into the name
      | .classDecl name superE methods =>
        (show Res Object from
          match superE with
          | some e =>
            (step fuel (.evalE e) s).andThen fun r s1 =>
              match r with
              | .obj so =>
                match so with
                | .cls _ => .out so s1
                | _ => .out so (throwErr s1 ⟨name, "Superclass must be a class"⟩)
              | _ => .stuck
          | none => .out (.lit .null) s).andThen fun so s1 =>
          let hasSuper := match superE with
            | some _ => true
            | none => false
          let s2 := s1.defineIn s1.env name.lexeme (.lit .null)
          let s3 := if hasSuper then
              pushFrame s2 { enclosing := some s2.env, values := [("super", so)] }
            else s2
          let envIdx := if hasSuper then s2.envs.length else s2.env
          match buildMethods envIdx methods [] with
          | some ms =>
            let superC : Option ClassT := match so with
              | .cls c => some c
              | _ => none
            let cl : ClassT := .mk name.lexeme superC ms
            let s4 := { s3 with env := envIdx }
            let popped : Option IState :=
              if hasSuper then
                match s4.frame? s4.env with
                | some f =>
                  match f.enclosing with
                  | some p => some { s4 with env := p }
                  | none => none
                | none => none
              else some s4
            match popped with
            | some s5 =>
              match envAssign s5 s5.envs.length s5.env name (.cls cl) with
              | some s6 => .out (.flow .norm) s6
              | none => .stuck
            | none => .crash "enclosing to exist"
          | none => .crash "internal error: entered unreachable code"
    -- the statement loop of execute_block: stop at the first signal
    | .execList sts =>
      match sts with
      | [] => .out (.flow .norm) s
      | st :: rest =>
        (step fuel (.execS st) s).andThen fun r s1 =>
          match r with
          | .flow .norm => step fuel (.execList rest) s1
          | .flow c => .out (.flow c) s1
          | _ => .stuck
    -- Interpreter::execute_block: swap in the given environment, run the
    -- statements, and restore the previous environment on EVERY exit path
    -- (normal completion and propagating signals alike)
    | .execBlockJ sts envIdx =>
      (step fuel (.execList sts) { s with env := envIdx }).andThen fun r s1 =>
        match r with
        | .flow c => .out (.flow c) { s1 with env := s.env }
        | _ => .stuck
    -- Function::call: fresh child environment of the closure with the
    -- parameters bound; initializers always return `this` (looked up at
    -- distance 0 in the closure); a Return signal yields the carried value;
    -- any other signal reaching here is `unreachable!()` — a process panic
    | .callF f args =>
      (step fuel (.execBlockJ f.body s.envs.length)
          (pushFrame s (callEnvFrame f args))).andThen fun r s1 =>
        match r with
        | .flow .norm =>
          if f.isInit then
            match get_at s1 f.closure 0 ⟨.identifier, "this", 0⟩ with
            | some (.ok v) => .out (.callR (.ok v)) s1
            | some (.error e) => .out (.callR (.error e)) s1
            | none => .crash "enclosing environment to exist"
          else .out (.callR (.ok (.lit .null))) s1
        | .flow (.ret v) =>
          if f.isInit then
            match get_at s1 f.closure 0 ⟨.identifier, "this", 0⟩ with
            | some (.ok w) => .out (.callR (.ok w)) s1
            | some (.error e) => .out (.callR (.error e)) s1
            | none => .crash "enclosing environment to exist"
          else .out (.callR (.ok v)) s1
        | .flow .brk =>
          if f.isInit then
            match get_at s1 f.closure 0 ⟨.identifier, "this", 0⟩ with
            | some (.ok w) => .out (.callR (.ok w)) s1
            | some (.error e) => .out (.callR (.error e)) s1
            | none => .crash "enclosing environment to exist"
          else .crash "internal error: entered unreachable code"
        | _ => .stuck
    -- Class::call: allocate a fresh Instance (the class is cloned into it),
    -- and if an `init` method exists anywhere on the chain, bind it to the
    -- new instance and invoke it, discarding its result (`?` propagates a
    -- returned error); the call yields the instance
    | .callC c args =>
      let idx := s.instances.length
      let instObj : Object := .inst idx
      let s1 : IState := { s with instances := s.instances ++ [⟨c, []⟩] }
      match c.get_method "init" with
      | some i0 =>
        let bi := i0.bind instObj s1
        (step fuel (.callF bi.1 args) bi.2).andThen fun r s2 =>
          match r with
          | .callR (.ok _) => .out (.callR (.ok instObj)) s2
          | .callR (.error e) => .out (.callR (.error e)) s2
          | _ => .stuck
      | none => .out (.callR (.ok instObj)) s1
    -- the loop of visit_while_stmt: NOTE the source only checks
    -- `if let Err(ReturnType::Break(_))`; an `Err(ReturnType::Return(_))`
    -- does not match, so a Return signal is discarded and the loop keeps
    -- iterating
    | .whileJ cond body =>
      (step fuel (.evalE cond) s).andThen fun r s1 =>
        match r with
        | .obj cv =>
          match cv.as_bool with
          | some b =>
            if b then
              (step fuel (.execS body) s1).andThen fun rb s2 =>
                match rb with
                | .flow .brk => .out (.flow .norm) s2
                | .flow _ => step fuel (.whileJ cond body) s2
                | _ => .stuck
            else .out (.flow .norm) s1
          | none => .stuck
        | _ => .stuck

/-- `Interpreter::evaluate`. -/
def evalExpr (fuel : Nat) (e : Expr) (s : IState) : Res Object :=
  (step fuel (.evalE e) s).andThen fun r s1 =>
    match r with
    | .obj o => .out o s1
    | _ => .stuck

/-- The argument list evaluation of `visit_call_expr`. -/
def evalArgs (fuel : Nat) (es : List Expr) (s : IState) : Res (List Object) :=
  (step fuel (.evalList es) s).andThen fun r s1 =>
    match r with
    | .objs os => .out os s1
    | _ => .stuck

/-- `Interpreter::execute`. -/
def execStmt (fuel : Nat) (st : Stmt) (s : IState) : Res CFlow :=
  (step fuel (.execS st) s).andThen fun r s1 =>
    match r with
    | .flow c => .out c s1
    | _ => .stuck

/-- `Interpreter::execute_block`. -/
def execute_block (fuel : Nat) (sts : List Stmt) (envIdx : Nat) (s : IState) : Res CFlow :=
  (step fuel (.execBlockJ sts envIdx) s).andThen fun r s1 =>
    match r with
    | .flow c => .out c s1
    | _ => .stuck

/-- `Function::call`. -/
def callFunction (fuel : Nat) (f : FunctionV) (args : List Object) (s : IState) :
    Res (Except ErrV Object) :=
  (step fuel (.callF f args) s).andThen fun r s1 =>
    match r with
    | .callR r0 => .out r0 s1
    | _ => .stuck

/-- `Class::call`. -/
def callClass (fuel : Nat) (c : ClassT) (args : List Object) (s : IState) :
    Res (Except ErrV Object) :=
  (step fuel (.callC c args) s).andThen fun r s1 =>
    match r with
    | .callR r0 => .out r0 s1
    | _ => .stuck

/-- `Interpreter::interpret`: execute each statement in order, discarding
any control-flow signal (`unwrap_or(())`) and CONTINUING with the next
statement — runtime errors do not unwind here (they only set the flag). -/
def interpret (fuel : Nat) : List Stmt → IState → Res Unit
  | [], s => .out () s
  | st :: rest, s =>
      (execStmt fuel st s).andThen fun _ s1 => interpret fuel rest s1

/-- src/function.rs `NativeFunction::get_globals`: the two native functions
installed into the global scope by `Interpreter::new`. -/
def get_globals : List (String × Object) :=
  [("clock", .native "clock"), ("input", .native "input")]

/-- `Interpreter::new`: a single globals frame holding the native functions,
with `environment == globals`, plus the resolver's side table. -/
def initState (locals : List (Token × Nat)) : IState :=
  { envs := [{ enclosing := none, values := get_globals }]
  , instances := []
  , globals := 0
  , env := 0
  , locals := locals
  , output := []
  , errors := []
  , hadRuntimeError := false
  , nativeLog := [] }

/-- The final state of a full run, when it terminates within the fuel. -/
def runState (fuel : Nat) (prog : List Stmt) (locals : List (Token × Nat)) :
    Option IState :=
  match interpret fuel prog (initState locals) with
  | .out _ s => some s
  | _ => none

/-- A binding read straight out of the globals frame. -/
def globalLookup (s : IState) (n : String) : Option Object :=
  match s.frame? s.globals with
  | some f => f.values.lookup n
  | none => none

/-- Convenience constructor for identifier tokens. -/
def tok (n : String) (i : Nat) : Token := ⟨.identifier, n, i⟩

/-- Convenience constructor for operator tokens. -/
def opTok (t : TokType) (lx : String) : Token := ⟨t, lx, 0⟩

/-- Is the object a literal?  This is the
`(Object::Literal(l), Object::Literal(r))` pattern test of
`visit_binary_expr`. -/
def Object.isLit : Object → Bool
  | .lit _ => true
  | _ => false

/-- Spec-side formulation for the inheritance round-trip claim: the chain of
classes reachable through superclass links, the class itself first. -/
def ClassT.chain : ClassT → List ClassT
  | .mk nm sup ms =>
      .mk nm sup ms ::
        (match sup with
         | some sc => sc.chain
         | none => [])

/-- Spec-side formulation: the nearest own-method definition walking the
chain upward (the first class in the list whose own table defines the
name). -/
def specChainFind : List ClassT → String → Option FunctionV
  | [], _ => none
  | c :: rest, n =>
      match c.methodsOf.lookup n with
      | some m => some m
      | none => specChainFind rest n

/-
  Concrete fixtures used by the claim theorems and witnesses.
-/

/-- The program
`var i = 0; fun f() { while (i < 1) { i = i + 1; return 7; } return 2; } print f();`
— a `return` inside a `while` loop inside a function, with a loop that
terminates after one iteration so the run is finite. -/
def c1prog : List Stmt :=
  [ .var (tok "i" 0) (some (.lit (.num 0))),
    .funDecl (tok "f" 1) []
      [ .whileS (.binary (.varE (tok "i" 2)) (opTok .less "<") (.lit (.num 1)))
          (.block [ .expression (.assign (tok "i" 3)
                      (.binary (.varE (tok "i" 4)) (opTok .plus "+") (.lit (.num 1)))),
                    .ret (tok "return" 5) (some (.lit (.num 7))) ]),
        .ret (tok "return" 6) (some (.lit (.num 2))) ],
    .print (.call (.varE (tok "f" 7)) (opTok .identifier ")") []) ]

/-- The program `1 + true; var x = 5;` — a runtime type error in the first
statement, and an observable second statement after it. -/
def c2prog : List Stmt :=
  [ .expression (.binary (.lit (.num 1)) (opTok .plus "+") (.lit (.bool true))),
    .var (tok "x" 0) (some (.lit (.num 5))) ]

/-- The program `class Foo {} print Foo == Foo;` — equality on two class
values. -/
def c3prog : List Stmt :=
  [ .classDecl (tok "Foo" 0) none [],
    .print (.binary (.varE (tok "Foo" 1)) (opTok .equalEqual "==") (.varE (tok "Foo" 2))) ]

/-- The statement `if (0) print "then"; else print "else";`. -/
def c5prog : List Stmt :=
  [ .ifS (.lit (.num 0)) (.print (.lit (.str "then")))
      (some (.print (.lit (.str "else")))) ]

/-- A user function whose body is a bare `break;` with no enclosing loop
(such a statement reaches the evaluator whenever the front end does not
reject it statically; the resolver of this snapshot does not check `break`
at all). -/
def breakFn : FunctionV := ⟨tok "f" 0, [], [.brk], 0, false⟩

/-- A user function whose body is `return 3;`. -/
def retFn : FunctionV :=
  ⟨tok "g" 0, [], [.ret (tok "return" 1) (some (.lit (.num 3)))], 0, false⟩

/-- An `init(x)` method with an empty body (an initializer). -/
def initFn : FunctionV := ⟨tok "init" 0, [tok "x" 1], [], 0, true⟩

/-- `class A { init(x) {} }`. -/
def clsA : ClassT := .mk "A" none [("init", initFn)]

/-- `class B < A {}` — inherits `init` from `A`. -/
def clsB : ClassT := .mk "B" (some clsA) []

/-- A one-parameter user function `g(a)` with an empty body. -/
def gFn : FunctionV := ⟨tok "g" 0, [tok "a" 1], [], 0, false⟩

/-- An interpreter state whose globals frame binds `g` to `gFn`. -/
def gState : IState :=
  { initState [] with envs := [{ enclosing := none, values := [("g", .fn gFn)] }] }

/-
  Characterisations of the wrapper functions in terms of `step`.
-/

/-- `evalExpr` succeeds exactly when `step` does, with the object payload. -/
theorem evalExpr_out_iff (fuel : Nat) (e : Expr) (s : IState) (v : Object) (s1 : IState) :
    evalExpr fuel e s = .out v s1 ↔ step fuel (.evalE e) s = .out (.obj v) s1 := by
  unfold evalExpr
  cases h : step fuel (.evalE e) s with
  | out r s2 => cases r <;> simp [Res.andThen]
  | crash m => simp [Res.andThen]
  | stuck => simp [Res.andThen]

/-- `evalArgs` succeeds exactly when `step` does, with the list payload. -/
theorem evalArgs_out_iff (fuel : Nat) (es : List Expr) (s : IState) (os : List Object) (s1 : IState) :
    evalArgs fuel es s = .out os s1 ↔ step fuel (.evalList es) s = .out (.objs os) s1 := by
  unfold evalArgs
  cases h : step fuel (.evalList es) s with
  | out r s2 => cases r <;> simp [Res.andThen]
  | crash m => simp [Res.andThen]
  | stuck => simp [Res.andThen]

/-- `execStmt` succeeds exactly when `step` does, with the flow payload. -/
theorem execStmt_out_iff (fuel : Nat) (st : Stmt) (s : IState) (c : CFlow) (s1 : IState) :
    execStmt fuel st s = .out c s1 ↔ step fuel (.execS st) s = .out (.flow c) s1 := by
  unfold execStmt
  cases h : step fuel (.execS st) s with
  | out r s2 => cases r <;> simp [Res.andThen]
  | crash m => simp [Res.andThen]
  | stuck => simp [Res.andThen]

/-- `execute_block` succeeds exactly when `step` does. -/
theorem execute_block_out_iff (fuel : Nat) (sts : List Stmt) (envIdx : Nat) (s : IState)
    (c : CFlow) (s1 : IState) :
    execute_block fuel sts envIdx s = .out c s1 ↔
      step fuel (.execBlockJ sts envIdx) s = .out (.flow c) s1 := by
  unfold execute_block
  cases h : step fuel (.execBlockJ sts envIdx) s with
  | out r s2 => cases r <;> simp [Res.andThen]
  | crash m => simp [Res.andThen]
  | stuck => simp [Res.andThen]

/-- `callFunction` succeeds exactly when `step` does. -/
theorem callFunction_out_iff (fuel : Nat) (f : FunctionV) (args : List Object) (s : IState)
    (r : Except ErrV Object) (s1 : IState) :
    callFunction fuel f args s = .out r s1 ↔ step fuel (.callF f args) s = .out (.callR r) s1 := by
  unfold callFunction
  cases h : step fuel (.callF f args) s with
  | out r0 s2 => cases r0 <;> simp [Res.andThen]
  | crash m => simp [Res.andThen]
  | stuck => simp [Res.andThen]

/-- `callFunction` panics exactly when `step` does. -/
theorem callFunction_crash_iff (fuel : Nat) (f : FunctionV) (args : List Object) (s : IState)
    (m : String) :
    callFunction fuel f args s = .crash m ↔ step fuel (.callF f args) s = .crash m := by
  unfold callFunction
  cases h : step fuel (.callF f args) s with
  | out r0 s2 => cases r0 <;> simp [Res.andThen]
  | crash m2 => simp [Res.andThen]
  | stuck => simp [Res.andThen]

/-- `callClass` succeeds exactly when `step` does. -/
theorem callClass_out_iff (fuel : Nat) (c : ClassT) (args : List Object) (s : IState)
    (r : Except ErrV Object) (s1 : IState) :
    callClass fuel c args s = .out r s1 ↔ step fuel (.callC c args) s = .out (.callR r) s1 := by
  unfold callClass
  cases h : step fuel (.callC c args) s with
  | out r0 s2 => cases r0 <;> simp [Res.andThen]
  | crash m => simp [Res.andThen]
  | stuck => simp [Res.andThen]

/-- `Class::get_method` agrees with the nearest-definition walk over the
superclass chain. -/
theorem get_method_eq_chainFind (c : ClassT) (n : String) :
    c.get_method n = specChainFind c.chain n := by
  induction c, n using ClassT.get_method.induct with
  | case1 nm sup ms n m hm =>
    cases sup <;>
      simp [ClassT.get_method.eq_1, ClassT.get_method.eq_2, ClassT.chain.eq_1, ClassT.chain.eq_2,
        specChainFind, ClassT.methodsOf, hm]
  | case2 nm ms n hm sc ih =>
    simp [ClassT.get_method.eq_1, ClassT.chain.eq_1, specChainFind, ClassT.methodsOf, hm, ih]
  | case3 nm ms n hm =>
    simp [ClassT.get_method.eq_2, ClassT.chain.eq_2, specChainFind, ClassT.methodsOf, hm]

/-- The chain walk yields `none` exactly when no class in the chain defines
the name. -/
theorem specChainFind_eq_none_iff (l : List ClassT) (n : String) :
    specChainFind l n = none ↔ ∀ d ∈ l, d.methodsOf.lookup n = none := by
  induction l with
  | nil => simp [specChainFind]
  | cons c rest ih =>
    cases hm : c.methodsOf.lookup n with
    | some m =>
      simp only [specChainFind, hm]
      constructor
      · intro h; exact absurd h (by simp)
      · intro h
        have h2 := h c (List.mem_cons_self c rest)
        rw [hm] at h2
        exact absurd h2 (by simp)
    | none =>
      simp only [specChainFind, hm]
      rw [List.forall_mem_cons]
      constructor
      · intro h; exact ⟨hm, ih.mp h⟩
      · intro h; exact ih.mpr h.2

/-
  The claims.
-/

/-- C1: the claim says a `return` executed inside a `while` loop propagates
out of the loop so `Function::call` yields the returned value to the call
site.  The code does the opposite: `visit_while_stmt` only checks
`if let Err(ReturnType::Break(_))`, so an `Err(ReturnType::Return(_))` is
discarded and the loop keeps iterating.  Evaluating the failing input
`var i = 0; fun f() { while (i < 1) { i = i + 1; return 7; } return 2; }
print f();` the run completes with NO runtime error and prints `2` — the
`return 7` inside the loop was silently swallowed, the loop re-tested its
condition, and the later `return 2` produced the call's value.  The claim
(and the repository's own tests `tests/while.rs return_inside` and
`tests/return.rs after_while`) require `7`; with a `while (true)` body the
same code loops forever. -/
theorem C1_while_loop_swallows_return :
    (runState 99 c1prog []).map (fun s => (s.output, s.errors, s.hadRuntimeError))
      = some (["2"], [], false) := rfl

/-- C2: counterexample.  The claim says a runtime error makes execution
"unwind to the top of `interpret`" with "no further statements of that run
executed".  Running `1 + true; var x = 5;`: the first statement throws the
mismatched-type error (recorded, flag set) — and the second statement still
executes, defining the global `x` to `5`.  `RuntimeError::throw` only prints
and sets `HAD_RUNTIME_ERROR`; nothing unwinds. -/
theorem C2_counterexample_execution_continues :
    (runState 99 c2prog []).map (fun s => (s.errors, s.hadRuntimeError, globalLookup s "x"))
      = some (["Binary operation with mismatched literal types is not supported"],
          true, some (.lit (.num 5))) := rfl

/-- C2 (amended): when a runtime error occurs, a diagnostic is recorded and
the global error flag is set, the erroneous expression evaluates to `Null`,
and execution CONTINUES with the subsequent statements of the run (here: for
every mismatched-kind literal binary operation followed by a `var`
declaration, the error is recorded and the declaration still executes,
leaving its binding in the globals). -/
theorem C2_runtime_errors_set_flag_and_continue (l r : Literal) (op : Token) (v : Literal)
    (hmm : l.type_str ≠ r.type_str) :
    ∃ s : IState,
      interpret 9
          [ .expression (.binary (.lit l) op (.lit r)),
            .var (tok "x" 0) (some (.lit v)) ] (initState [])
        = .out () s
      ∧ s.errors = ["Binary operation with mismatched literal types is not supported"]
      ∧ s.hadRuntimeError = true
      ∧ globalLookup s "x" = some (.lit v) := by
  cases l <;> cases r <;>
    first
    | exact ⟨_, rfl, rfl, rfl, rfl⟩
    | (simp [Literal.type_str] at hmm)

/-- C2: witness for the amended theorem at `1 + true; var x = 5;`. -/
theorem C2_witness :
    ∃ s : IState,
      interpret 9
          [ .expression (.binary (.lit (.num 1)) (opTok .plus "+") (.lit (.bool true))),
            .var (tok "x" 0) (some (.lit (.num 5))) ] (initState [])
        = .out () s
      ∧ s.errors = ["Binary operation with mismatched literal types is not supported"]
      ∧ s.hadRuntimeError = true
      ∧ globalLookup s "x" = some (.lit (.num 5)) :=
  C2_runtime_errors_set_flag_and_continue (.num 1) (.bool true) (opTok .plus "+") (.num 5)
    (by decide)

/-- C3: counterexample.  The claim says `==` is defined (never a runtime
error) for every pair of values, with functions/classes/instances compared
by identity.  Running `class Foo {} print Foo == Foo;`: `visit_binary_expr`
only handles literal operands; the class pair hits the non-literal branch,
throws "Binary operation with non-literal objects is not supported", yields
`Null`, and the print is suppressed by the error flag — nothing is printed
(the repository's own test `tests/operator.rs equals_class` expects `true`
here, and `tests/bool.rs mismatched` conversely expects the mismatched-kind
error, so the test suite itself is split; the evaluator is the authority for
what the code does). -/
theorem C3_counterexample_object_equality_throws :
    (runState 99 c3prog []).map (fun s => (s.output, s.errors))
      = some ([], ["Binary operation with non-literal objects is not supported"]) := rfl

/-- C3 (amended): equality is defined only on literal operands of matching
kind — `Nil == Nil` is true, same-kind scalars compare by value — while a
mismatched-kind literal pair or any non-literal operand (function, native
function, class, instance) raises a runtime error and the expression yields
`Null`; no coercion ever happens. -/
theorem C3_equality_literal_only (fuel : Nat) (s : IState) :
    (∀ n m : Int,
      evalExpr (fuel+2) (.binary (.lit (.num n)) (opTok .equalEqual "==") (.lit (.num m))) s
        = .out (.lit (.bool (decide (n = m)))) s)
  ∧ (∀ a b : String,
      evalExpr (fuel+2) (.binary (.lit (.str a)) (opTok .equalEqual "==") (.lit (.str b))) s
        = .out (.lit (.bool (decide (a = b)))) s)
  ∧ (∀ a b : Bool,
      evalExpr (fuel+2) (.binary (.lit (.bool a)) (opTok .equalEqual "==") (.lit (.bool b))) s
        = .out (.lit (.bool (decide (a = b)))) s)
  ∧ (evalExpr (fuel+2) (.binary (.lit .null) (opTok .equalEqual "==") (.lit .null)) s
        = .out (.lit (.bool true)) s)
  ∧ (evalExpr (fuel+2) (.binary (.lit .null) (opTok .bangEqual "!=") (.lit .null)) s
        = .out (.lit (.bool false)) s)
  ∧ (∀ (l r : Literal) (op : Token), l.type_str ≠ r.type_str →
      evalExpr (fuel+2) (.binary (.lit l) op (.lit r)) s
        = .out (.lit .null)
            (throwErr s ⟨op, "Binary operation with mismatched literal types is not supported"⟩))
  ∧ (∀ (e1 e2 : Expr) (op : Token) (o1 o2 : Object) (s1 s2 : IState),
      evalExpr fuel e1 s = .out o1 s1 →
      evalExpr fuel e2 s1 = .out o2 s2 →
      (o1.isLit = false ∨ o2.isLit = false) →
      evalExpr (fuel+1) (.binary e1 op e2) s
        = .out (.lit .null)
            (throwErr s2 ⟨op, "Binary operation with non-literal objects is not supported"⟩)) := by
  refine ⟨?_, ?_, ?_, ?_, ?_, ?_, ?_⟩
  · intro n m
    rw [evalExpr_out_iff]
    simp [step, Res.andThen, binaryLit, opTok]
  · intro a b
    rw [evalExpr_out_iff]
    simp [step, Res.andThen, binaryLit, opTok]
  · intro a b
    rw [evalExpr_out_iff]
    simp [step, Res.andThen, binaryLit, opTok]
  · rw [evalExpr_out_iff]
    simp [step, Res.andThen, binaryLit, opTok]
  · rw [evalExpr_out_iff]
    simp [step, Res.andThen, binaryLit, opTok]
  · intro l r op hmm
    rw [evalExpr_out_iff]
    cases l <;> cases r <;>
      first
      | (simp [step, Res.andThen, binaryLit]; done)
      | (simp [Literal.type_str] at hmm)
  · intro e1 e2 op o1 o2 s1 s2 h1 h2 hnl
    rw [evalExpr_out_iff] at h1 h2
    rw [evalExpr_out_iff]
    simp only [step]
    rw [h1]
    simp only [Res.andThen]
    rw [h2]
    simp only [Res.andThen]
    cases o1 <;> cases o2 <;> simp_all [Object.isLit]

/-- C3: witness for the amended theorem — `1 == "1"` raises the
mismatched-kind error, and `clock == clock` (two native-function operands)
raises the non-literal error. -/
theorem C3_witness :
    (evalExpr 3 (.binary (.lit (.num 1)) (opTok .equalEqual "==") (.lit (.str "1"))) (initState [])
      = .out (.lit .null)
          (throwErr (initState [])
            ⟨opTok .equalEqual "==", "Binary operation with mismatched literal types is not supported"⟩))
  ∧ (evalExpr 2 (.binary (.varE (tok "clock" 0)) (opTok .equalEqual "==") (.varE (tok "clock" 1)))
        (initState [])
      = .out (.lit .null)
          (throwErr (initState [])
            ⟨opTok .equalEqual "==", "Binary operation with non-literal objects is not supported"⟩)) :=
  ⟨(C3_equality_literal_only 1 (initState [])).2.2.2.2.2.1 (.num 1) (.str "1")
      (opTok .equalEqual "==") (by decide),
   (C3_equality_literal_only 1 (initState [])).2.2.2.2.2.2 (.varE (tok "clock" 0))
      (.varE (tok "clock" 1)) (opTok .equalEqual "==") (.native "clock") (.native "clock")
      (initState []) (initState []) rfl rfl (Or.inl rfl)⟩

/-- C4: counterexample.  The claim says the signals are always fully caught
and in particular the catch-all branch of `Function::call` is never a
panicking unreachable path.  It is literally `unreachable!()`: calling a
non-initializer function whose body executes `break` with no enclosing loop
makes `Function::call` panic (this snapshot's resolver does not check
`break` at all, and its parser has no `break` branch, so nothing upstream
guards the evaluator). -/
theorem C4_counterexample_break_in_function_panics :
    callFunction 99 breakFn [] (initState [])
      = .crash "internal error: entered unreachable code" := rfl

/-- C4 (amended): a Return signal reaching `Function::call` is caught and
yields the carried value, and signals reaching the top of `interpret` are
silently discarded (`unwrap_or(())`) — but a Break signal reaching the
catch-all of a non-initializer `Function::call` hits `unreachable!()` and
panics; the evaluator has no defensive guard there (only initializers
swallow it through the implicit `this` return). -/
theorem C4_signals_policy (fuel : Nat) (f : FunctionV) (args : List Object) (s : IState)
    (v : Object) (s2 : IState) (kw : Token) (hf : f.isInit = false) :
    (execute_block fuel f.body s.envs.length (pushFrame s (callEnvFrame f args))
        = .out (.ret v) s2 →
      callFunction (fuel+1) f args s = .out (.ok v) s2)
  ∧ (execute_block fuel f.body s.envs.length (pushFrame s (callEnvFrame f args))
        = .out .brk s2 →
      callFunction (fuel+1) f args s = .crash "internal error: entered unreachable code")
  ∧ interpret (fuel+1) [Stmt.brk] s = .out () s
  ∧ interpret (fuel+1) [Stmt.ret kw none] s = .out () s := by
  refine ⟨?_, ?_, ?_, ?_⟩
  · intro h
    rw [execute_block_out_iff] at h
    rw [callFunction_out_iff]
    simp only [step]
    rw [h]
    simp [Res.andThen, hf]
  · intro h
    rw [execute_block_out_iff] at h
    rw [callFunction_crash_iff]
    simp only [step]
    rw [h]
    simp [Res.andThen, hf]
  · simp [interpret, execStmt, step, Res.andThen]
  · simp [interpret, execStmt, step, Res.andThen]

/-- C4: witness for the amended theorem — calling `fun g() { return 3; }`
yields `3` through the Return-signal catch. -/
theorem C4_witness :
    ∃ s2 : IState, callFunction 99 retFn [] (initState []) = .out (.ok (.lit (.num 3))) s2 :=
  ⟨_, (C4_signals_policy 98 retFn [] (initState []) (.lit (.num 3)) _ (tok "return" 1) rfl).1 rfl⟩

/-- C5: counterexample.  The claim says every value other than `Nil` and
booleans is truthy, including the number `0` and the empty string.
`Literal::as_bool` makes both falsy, and `if (0) print "then"; else print
"else";` prints `else` (the repository's own test
`tests/logical_operator.rs and_truth` expects `""` and `0` to short-circuit
`and`, confirming the falsy rule). -/
theorem C5_counterexample_zero_and_empty_falsy :
    Literal.as_bool (.num 0) = false
  ∧ Literal.as_bool (.str "") = false
  ∧ (runState 9 c5prog []).map IState.output = some ["else"] := ⟨rfl, rfl, rfl⟩

/-- C5 (amended): truthiness of a literal is: `Nil` is false, a `Bool` is
itself, a number is true iff it is not `0`, a string is true iff it is
non-empty — equivalently, exactly `Nil`, `false`, `0` and `""` are falsy —
and the `if` statement branches on exactly this rule (non-literal values
have no boolean conversion: `Object::as_bool` yields `None`). -/
theorem C5_truthiness :
    (∀ l : Literal,
        l.as_bool = false ↔ (l = .null ∨ l = .bool false ∨ l = .num 0 ∨ l = .str ""))
  ∧ (∀ (fuel : Nat) (l : Literal) (t e : Stmt) (s : IState),
      execStmt (fuel+2) (.ifS (.lit l) t (some e)) s
        = if l.as_bool then execStmt (fuel+1) t s else execStmt (fuel+1) e s)
  ∧ (∀ (fuel : Nat) (l : Literal) (t : Stmt) (s : IState),
      execStmt (fuel+2) (.ifS (.lit l) t none) s
        = if l.as_bool then execStmt (fuel+1) t s else .out .norm s) := by
  refine ⟨?_, ?_, ?_⟩
  · intro l
    cases l with
    | str t => simp [Literal.as_bool, String.isEmpty_iff]
    | num n => simp [Literal.as_bool]
    | bool b => simp [Literal.as_bool]
    | null => simp [Literal.as_bool]
  · intro fuel l t e s
    cases hb : l.as_bool <;>
      simp [execStmt, step, Res.andThen, Object.as_bool, hb]
  · intro fuel l t s
    cases hb : l.as_bool <;>
      simp [execStmt, step, Res.andThen, Object.as_bool, hb]


/-- C5: witness applying the truthiness theorem at the concrete falsy
condition `0`: the `if` takes the else branch. -/
theorem C5_witness :
    execStmt 9 (.ifS (.lit (.num 0)) (.print (.lit (.str "then")))
        (some (.print (.lit (.str "else"))))) (initState [])
      = execStmt 8 (.print (.lit (.str "else"))) (initState []) :=
  (C5_truthiness.2.1 7 (.num 0) (.print (.lit (.str "then")))
      (.print (.lit (.str "else"))) (initState [])).trans (by simp [Literal.as_bool])

/-- C6: calling a class allocates a fresh `Instance` (at the next free index
of the instance heap, holding a clone of the class); the class's arity is
the arity of the nearest `init` found walking the superclass chain (0 if
none); when an `init` exists it is bound to the new instance and invoked
with the call arguments, its result is discarded and the call yields the new
instance; the only non-instance outcome is the faithful propagation (`?`) of
an error returned by the initializer call. -/
theorem C6_class_call_contract (fuel : Nat) (c : ClassT) (args : List Object) (s : IState) :
    (c.get_method "init" = none →
      callClass (fuel+1) c args s
        = .out (.ok (.inst s.instances.length)) { s with instances := s.instances ++ [⟨c, []⟩] })
  ∧ (∀ i0 : FunctionV, c.get_method "init" = some i0 →
      ∀ (v : Object) (s2 : IState),
        callFunction fuel
            ((i0.bind (.inst s.instances.length) { s with instances := s.instances ++ [⟨c, []⟩] }).1)
            args
            ((i0.bind (.inst s.instances.length) { s with instances := s.instances ++ [⟨c, []⟩] }).2)
          = .out (.ok v) s2 →
        callClass (fuel+1) c args s = .out (.ok (.inst s.instances.length)) s2)
  ∧ (∀ i0 : FunctionV, c.get_method "init" = some i0 →
      ∀ (e : ErrV) (s2 : IState),
        callFunction fuel
            ((i0.bind (.inst s.instances.length) { s with instances := s.instances ++ [⟨c, []⟩] }).1)
            args
            ((i0.bind (.inst s.instances.length) { s with instances := s.instances ++ [⟨c, []⟩] }).2)
          = .out (.error e) s2 →
        callClass (fuel+1) c args s = .out (.error e) s2)
  ∧ c.arity = (match specChainFind c.chain "init" with
      | some f => f.params.length
      | none => 0) := by
  refine ⟨?_, ?_, ?_, ?_⟩
  · intro h
    rw [callClass_out_iff]
    simp only [step, h]
  · intro i0 h v s2 hc
    rw [callFunction_out_iff] at hc
    rw [callClass_out_iff]
    simp only [step, h]
    rw [hc]
    simp [Res.andThen]
  · intro i0 h e s2 hc
    rw [callFunction_out_iff] at hc
    rw [callClass_out_iff]
    simp only [step, h]
    rw [hc]
    simp [Res.andThen]
  · rw [ClassT.arity, get_method_eq_chainFind]

/-- C6: witness — `class A { init(x) {} } class B < A {}`: `B` has arity 1
through the inherited initializer, and `B(5)` yields the freshly allocated
instance 0 (the initializer's own result is discarded). -/
theorem C6_witness :
    clsB.arity = 1
  ∧ ∃ s2 : IState,
      callClass 99 clsB [.lit (.num 5)] (initState []) = .out (.ok (.inst 0)) s2 :=
  ⟨(C6_class_call_contract 98 clsB [.lit (.num 5)] (initState [])).2.2.2.trans rfl,
   ⟨_, (C6_class_call_contract 98 clsB [.lit (.num 5)] (initState [])).2.1 initFn rfl
      (.inst 0) _ rfl⟩⟩

/-- C7: a block statement runs its body through `execute_block` in a fresh
child frame of the current environment, and `execute_block` restores the
previous environment on EVERY exit path — normal completion and propagating
return/break signals alike — so no temporary scope leaks into subsequent
execution. -/
theorem C7_block_env_restored (fuel : Nat) (sts : List Stmt) (s : IState) (c : CFlow)
    (s2 : IState) :
    (∀ (envIdx : Nat) (s0 : IState),
        execute_block fuel sts envIdx s0 = .out c s2 → s2.env = s0.env)
  ∧ (execStmt (fuel+1) (.block sts) s
      = execute_block fuel sts s.envs.length (pushFrame s { enclosing := some s.env, values := [] }))
  ∧ (execStmt (fuel+1) (.block sts) s = .out c s2 → s2.env = s.env) := by
  have hrestore : ∀ (envIdx : Nat) (s0 : IState),
      execute_block fuel sts envIdx s0 = .out c s2 → s2.env = s0.env := by
    intro envIdx s0 h
    rw [execute_block_out_iff] at h
    cases fuel with
    | zero => simp [step] at h
    | succ fuel =>
      simp only [step] at h
      cases h2 : step fuel (.execList sts) { s0 with env := envIdx } with
      | out r s3 =>
        rw [h2] at h
        cases r <;> simp [Res.andThen] at h
        obtain ⟨h3, h4⟩ := h
        subst h4
        rfl
      | crash m => rw [h2] at h; simp [Res.andThen] at h
      | stuck => rw [h2] at h; simp [Res.andThen] at h
  have hunfold : execStmt (fuel+1) (.block sts) s
      = execute_block fuel sts s.envs.length
          (pushFrame s { enclosing := some s.env, values := [] }) := by
    simp [execStmt, execute_block, step]
  refine ⟨hrestore, hunfold, ?_⟩
  intro h
  rw [hunfold] at h
  exact hrestore s.envs.length (pushFrame s { enclosing := some s.env, values := [] }) h

/-- C7: witness — executing the block `{ var y = 1; }` (a normal exit) and
the block `{ break; }` (a signal exit) both leave the current environment
exactly as it was. -/
theorem C7_witness :
    (∃ s2 : IState,
      execStmt 9 (.block [.var (tok "y" 0) (some (.lit (.num 1)))]) (initState [])
        = .out .norm s2 ∧ s2.env = (initState []).env)
  ∧ (∃ s2 : IState,
      execStmt 9 (.block [Stmt.brk]) (initState [])
        = .out .brk s2 ∧ s2.env = (initState []).env) :=
  ⟨⟨_, rfl, (C7_block_env_restored 8 [.var (tok "y" 0) (some (.lit (.num 1)))]
      (initState []) .norm _).2.2 rfl⟩,
   ⟨_, rfl, (C7_block_env_restored 8 [Stmt.brk] (initState []) .brk _).2.2 rfl⟩⟩

/-- C8: for every call expression whose callee evaluates to a `Function`,
`NativeFunction` or `Class`, an argument count differing from the callee's
arity makes `visit_call_expr` throw
`Expected <arity> arguments but got <n>` and yield `Null` WITHOUT invoking
the callee's `call` — the resulting state is exactly the argument-evaluation
state with the diagnostic appended (no frame, instance, output or native-log
change), for every arity (0, 1 and greater alike). -/
theorem C8_arity_checked_before_call (fuel : Nat) (calleeE : Expr) (paren : Token)
    (argEs : List Expr) (s s1 s2 : IState) (objs : List Object)
    (hargs : evalArgs fuel argEs s1 = .out objs s2) :
    (∀ f : FunctionV, evalExpr fuel calleeE s = .out (.fn f) s1 →
        objs.length ≠ f.arity →
        evalExpr (fuel+1) (.call calleeE paren argEs) s
          = .out (.lit .null) (throwErr s2 ⟨paren, arityMsg f.arity objs.length⟩))
  ∧ (∀ nm, evalExpr fuel calleeE s = .out (.native nm) s1 →
        objs.length ≠ nativeArity nm →
        evalExpr (fuel+1) (.call calleeE paren argEs) s
          = .out (.lit .null) (throwErr s2 ⟨paren, arityMsg (nativeArity nm) objs.length⟩))
  ∧ (∀ c : ClassT, evalExpr fuel calleeE s = .out (.cls c) s1 →
        objs.length ≠ c.arity →
        evalExpr (fuel+1) (.call calleeE paren argEs) s
          = .out (.lit .null) (throwErr s2 ⟨paren, arityMsg c.arity objs.length⟩)) := by
  rw [evalArgs_out_iff] at hargs
  refine ⟨?_, ?_, ?_⟩
  · intro f hc hn
    rw [evalExpr_out_iff] at hc
    rw [evalExpr_out_iff]
    simp only [step]
    rw [hc]
    simp only [Res.andThen]
    rw [hargs]
    simp only [Res.andThen]
    simp [hn]
  · intro nm hc hn
    rw [evalExpr_out_iff] at hc
    rw [evalExpr_out_iff]
    simp only [step]
    rw [hc]
    simp only [Res.andThen]
    rw [hargs]
    simp only [Res.andThen]
    simp [hn]
  · intro c hc hn
    rw [evalExpr_out_iff] at hc
    rw [evalExpr_out_iff]
    simp only [step]
    rw [hc]
    simp only [Res.andThen]
    rw [hargs]
    simp only [Res.andThen]
    simp [hn]

/-- C8: witness — calling the one-parameter function `g` with zero
arguments, the inherited-arity-1 class `B` with zero arguments, and the
native `clock` with one argument each produce the expected/got diagnostic
and leave the state otherwise untouched. -/
theorem C8_witness :
    (evalExpr 6 (.call (.varE (tok "g" 2)) (opTok .identifier ")") []) gState
      = .out (.lit .null) (throwErr gState ⟨opTok .identifier ")", arityMsg 1 0⟩))
  ∧ (evalExpr 6 (.call (.varE (tok "clock" 0)) (opTok .identifier ")") [.lit (.num 1)])
        (initState [])
      = .out (.lit .null) (throwErr (initState []) ⟨opTok .identifier ")", arityMsg 0 1⟩)) :=
  ⟨(C8_arity_checked_before_call 5 (.varE (tok "g" 2)) (opTok .identifier ")") [] gState
      gState gState [] rfl).1 gFn rfl (by decide),
   (C8_arity_checked_before_call 5 (.varE (tok "clock" 0)) (opTok .identifier ")")
      [.lit (.num 1)] (initState []) (initState []) (initState []) [.lit (.num 1)] rfl).2.1
      "clock" rfl (by decide)⟩

/-- C9: class method lookup is transitive through inheritance:
`get_method` on a class equals the nearest own-definition found walking the
superclass chain upward (so a method defined only on the root ancestor is
found through any number of subclass hops), and it is `None` exactly when no
class in the chain defines the name. -/
theorem C9_method_lookup_chain (c : ClassT) (n : String) :
    c.get_method n = specChainFind c.chain n
  ∧ (c.get_method n = none ↔ ∀ d ∈ c.chain, d.methodsOf.lookup n = none) :=
  ⟨get_method_eq_chainFind c n,
   by rw [get_method_eq_chainFind]; exact specChainFind_eq_none_iff c.chain n⟩


/-- C9: witness applying the chain-lookup theorem at the concrete two-level
chain `class A { init(x) {} } class B < A {}`: the `init` defined only on
the root ancestor is found from `B`. -/
theorem C9_witness :
    clsB.get_method "init" = specChainFind clsB.chain "init"
  ∧ clsB.get_method "init" = some initFn :=
  ⟨(C9_method_lookup_chain clsB "init").1,
   ((C9_method_lookup_chain clsB "init").1).trans rfl⟩

/-- C10: every `NativeFunction` reports arity 0 (the `arity` impl is the
constant 0, whatever the host function accepts), so any call to a native
function with a non-zero number of arguments is rejected with
`Expected 0 arguments but got <n>` before the host function is invoked: the
resulting state is the argument-evaluation state with only the diagnostic
appended, and in particular the native invocation log is unchanged. -/
theorem C10_native_arity_zero (nm : String) (fuel : Nat) (calleeE : Expr) (paren : Token)
    (argEs : List Expr) (s s1 s2 : IState) (objs : List Object) :
    nativeArity nm = 0
  ∧ (evalExpr fuel calleeE s = .out (.native nm) s1 →
      evalArgs fuel argEs s1 = .out objs s2 →
      objs.length ≠ 0 →
      evalExpr (fuel+1) (.call calleeE paren argEs) s
          = .out (.lit .null) (throwErr s2 ⟨paren, arityMsg 0 objs.length⟩)
        ∧ (throwErr s2 ⟨paren, arityMsg 0 objs.length⟩).nativeLog = s2.nativeLog) := by
  refine ⟨rfl, ?_⟩
  intro hc hargs hn
  rw [evalExpr_out_iff] at hc
  rw [evalArgs_out_iff] at hargs
  refine ⟨?_, rfl⟩
  rw [evalExpr_out_iff]
  simp only [step]
  rw [hc]
  simp only [Res.andThen]
  rw [hargs]
  simp only [Res.andThen]
  simp [hn, nativeArity]

/-- C10: witness — `clock(1)` is rejected with `Expected 0 arguments but got
1` and the native log stays empty (the host clock is never invoked). -/
theorem C10_witness :
    evalExpr 6 (.call (.varE (tok "clock" 3)) (opTok .identifier ")") [.lit (.num 1)])
        (initState [])
      = .out (.lit .null)
          (throwErr (initState []) ⟨opTok .identifier ")", arityMsg 0 1⟩)
  ∧ (throwErr (initState []) ⟨opTok .identifier ")", arityMsg 0 1⟩).nativeLog
      = (initState []).nativeLog :=
  (C10_native_arity_zero "clock" 5 (.varE (tok "clock" 3)) (opTok .identifier ")")
    [.lit (.num 1)] (initState []) (initState []) (initState []) [.lit (.num 1)]).2
    rfl rfl (by decide)

end Rocks
